import Mathlib

/-!
Shallow embedding of the provider connectivity detection engine
(`ConnectionsService` in the source): data model, command resolution,
process probe, shell fallback, probe cascade, status/message
classification, retry bookkeeping, and the cache/broadcast step.

JavaScript conventions modelled explicitly:
* `string | null` fields become `Option String`; JS truthiness of such a
  value is "non-null and non-empty".
* an `undefined` command slot (indexing an empty array) becomes `none`;
  `Array.prototype.join` renders it as the empty string while a template
  literal renders it as the literal text "undefined".
* process spawning, path lookup and the `SHELL` variable are supplied by
  an explicit `Env` record, so every run of the engine is a pure function
  of that environment.
-/

namespace Connections

/-- The closed set of provider status codes. -/
inductive CliStatusCode where
  | connected
  | missing
  | needs_key
  | error
deriving DecidableEq, Repr

/-- A JS `Error` as the engine observes it: a message plus the optional
`code` field of `NodeJS.ErrnoException` (e.g. `"ENOENT"`). -/
structure Err where
  message : String
  code : Option String
deriving DecidableEq, Repr

/-- `CommandResult`: the normalized outcome of one probe attempt.
`command` is `Option String` because the shell-fallback path can store an
`undefined` command slot there. -/
structure CommandResult where
  command : Option String
  success : Bool
  error : Option Err
  stdout : String
  stderr : String
  status : Option Int
  version : Option String
  resolvedPath : Option String
  timedOut : Bool
  timeoutMs : Nat
deriving DecidableEq, Repr

/-- A provider definition as consumed by the engine (`CliDefinition`). -/
structure CliDefinition where
  id : String
  name : String
  commands : List String
  args : List String
  statusResolver : Option (CommandResult → CliStatusCode)
  messageResolver : Option (CommandResult → Option String)

/-- JS truthiness of a `string | null` value: non-null and non-empty. -/
def truthyOptStr : Option String → Bool
  | none => false
  | some s => s ≠ ""

/-- JS `a || b` for a `string`-valued `a` with default `b`:
the default is used when `a` is absent or empty. -/
def jsOrStr (o : Option String) (dflt : String) : String :=
  match o with
  | none => dflt
  | some s => if s = "" then dflt else s

/-- Outcome of one `spawn` call, as decided by the environment: either the
`error` event fired (spawn failure), or the `close` event fired with an
exit code (`none` when the child was killed by a signal).  Both carry the
output accumulated so far and whether the probe's timeout had fired. -/
inductive SpawnOutcome where
  | spawnError (err : Err) (stdout stderr : String) (timedOut : Bool)
  | exited (code : Option Int) (stdout stderr : String) (timedOut : Bool)
deriving DecidableEq, Repr

/-- The process environment: the raw output of the platform lookup utility
(`which`/`where`, `none` when it threw), the outcome of each spawn keyed by
executable and argument vector, the `SHELL` and `ComSpec` variables, and
the platform flag. -/
structure Env where
  resolveRaw : String → Option String
  spawn : String → List String → SpawnOutcome
  shellEnv : Option String
  comSpec : Option String
  isWin : Bool

/-- Split a character list at newline characters.  Together with the
per-line trim below this reproduces `.split(/\r?\n/).map(trim)`: a `\r`
adjacent to the `\n` boundary sits at a segment edge and is trimmed. -/
def splitOnNl : List Char → List (List Char)
  | [] => [[]]
  | c :: rest =>
    let r := splitOnNl rest
    if c = '\n' then [] :: r
    else
      match r with
      | [] => [[c]]
      | h :: t => (c :: h) :: t

/-- The whitespace class trimmed by JS `String.prototype.trim` (the
characters that occur in this engine's outputs). -/
def isWsChar (c : Char) : Bool :=
  c = ' ' || c = '\t' || c = '\n' || c = '\r' || c = '\x0b' || c = '\x0c'

/-- JS `trim`: drop whitespace from both ends. -/
def jsTrim (s : String) : String :=
  String.mk (((s.toList.dropWhile isWsChar).reverse.dropWhile isWsChar).reverse)

/-- ASCII lowercase (the source's `toLowerCase` is only used to test for
the `.cmd`/`.bat` suffix). -/
def toLowerStr (s : String) : String :=
  String.mk (s.toList.map Char.toLower)

/-- Helper for the suffix test: does the first (reversed) list start with
the second (reversed) list? -/
def revStartsWith : List Char → List Char → Bool
  | _, [] => true
  | [], _ :: _ => false
  | a :: as, b :: bs => a = b && revStartsWith as bs

/-- JS `endsWith`. -/
def strEndsWith (s suffix : String) : Bool :=
  revStartsWith s.toList.reverse suffix.toList.reverse

/-- `resolveCommandPath`: run the lookup utility, split its output into
lines, trim, drop empties, and take the first line; `none` on any failure. -/
def resolveCommandPath (env : Env) (command : String) : Option String :=
  match env.resolveRaw command with
  | none => none
  | some raw =>
    (((splitOnNl raw.toList).map (fun l => jsTrim (String.mk l))).filter (· ≠ "")).head?

/-- `quoteForCmdExe` metacharacter test: `/[\s"^&|<>()%!]/`. -/
def isCmdMeta (c : Char) : Bool :=
  c.isWhitespace || c = '"' || c = '^' || c = '&' || c = '|' ||
    c = '<' || c = '>' || c = '(' || c = ')' || c = '%' || c = '!'

/-- `.replace(/%/g, '%%')`. -/
def repPercent : List Char → List Char
  | [] => []
  | c :: cs => if c = '%' then '%' :: '%' :: repPercent cs else c :: repPercent cs

/-- `.replace(/!/g, '^!')`. -/
def repBang : List Char → List Char
  | [] => []
  | c :: cs => if c = '!' then '^' :: '!' :: repBang cs else c :: repBang cs

/-- `.replace(/(["^&|<>()])/g, '^$1')`. -/
def repMeta : List Char → List Char
  | [] => []
  | c :: cs =>
    if c = '"' || c = '^' || c = '&' || c = '|' || c = '<' || c = '>' ||
        c = '(' || c = ')' then '^' :: c :: repMeta cs
    else c :: repMeta cs

/-- `quoteForCmdExe`: shell-quote one argument for the Windows command
interpreter, chaining the three replacements exactly as the source does. -/
def quoteForCmdExe (input : String) : String :=
  if input.length = 0 then "\x22\x22"
  else if input.toList.any isCmdMeta then
    "\x22" ++ String.mk (repMeta (repBang (repPercent input.toList))) ++ "\x22"
  else input

/-- One digit-greedy step of the version scanner: the leading digit run
and the rest. -/
def takeDigits : List Char → List Char × List Char
  | [] => ([], [])
  | c :: cs =>
    if c.isDigit then
      let (d, r) := takeDigits cs
      (c :: d, r)
    else ([], c :: cs)

/-- Match `\d+\.\d+(\.\d+)?` anchored at the head of the character list
(greedy, as the JS regex behaves on this pattern). -/
def matchVersionAt (cs : List Char) : Option (List Char) :=
  let (d1, r1) := takeDigits cs
  if d1.isEmpty then none
  else
    match r1 with
    | '.' :: r2 =>
      let (d2, r3) := takeDigits r2
      if d2.isEmpty then none
      else
        match r3 with
        | '.' :: r4 =>
          let (d3, _) := takeDigits r4
          if d3.isEmpty then some (d1 ++ '.' :: d2)
          else some (d1 ++ '.' :: d2 ++ '.' :: d3)
        | _ => some (d1 ++ '.' :: d2)
    | _ => none

/-- Leftmost match of the version pattern. -/
def findVersion : List Char → Option (List Char)
  | [] => none
  | c :: cs =>
    match matchVersionAt (c :: cs) with
    | some m => some m
    | none => findVersion cs

/-- `extractVersion`: first substring of the output matching
`\d+\.\d+(\.\d+)?`, else `null`. -/
def extractVersion (output : String) : Option String :=
  if output = "" then none
  else (findVersion output.toList).map String.mk

/-- The executable and argument vector actually passed to `spawn` by
`runCommand`: on Windows a `.cmd`/`.bat` target is routed through the
command interpreter with each argument quoted; otherwise the bare command
is spawned with the argument vector unchanged. -/
def spawnPlan (env : Env) (command : String) (args : List String) :
    String × List String :=
  let resolvedPath := resolveCommandPath env command
  let executable := resolvedPath.getD command
  let lower := toLowerStr executable
  let shouldUseCmdExe := env.isWin && (strEndsWith lower ".cmd" || strEndsWith lower ".bat")
  if shouldUseCmdExe then
    (jsOrStr env.comSpec "cmd.exe",
      ["/d", "/s", "/c",
        String.intercalate " " ((executable :: args).map quoteForCmdExe)])
  else (command, args)

/-- `runCommand`: resolve the path, spawn per `spawnPlan`, and normalize
the outcome into a `CommandResult`.  The `error`-event path carries the
spawn error with a null exit code; the `close`-event path computes
`success = !didTimeout && code === 0` and scans stdout then stderr for a
version token.  The source's outer catch produces the same record shape as
a spawn error with empty output, so it is subsumed by `spawnError`. -/
def runCommand (env : Env) (command : String) (args : List String)
    (timeoutMs : Nat) : CommandResult :=
  let resolvedPath := resolveCommandPath env command
  let plan := spawnPlan env command args
  match env.spawn plan.1 plan.2 with
  | .spawnError e out err dt =>
    { command := some command
      success := false
      error := some e
      stdout := out
      stderr := err
      status := none
      version := none
      resolvedPath := resolvedPath
      timedOut := dt
      timeoutMs := timeoutMs }
  | .exited code out err dt =>
    { command := some command
      success := decide (dt = false ∧ code = some 0)
      error := if dt then some ⟨"Command timeout", none⟩ else none
      stdout := out
      stderr := err
      status := code
      version := (extractVersion out).or (extractVersion err)
      resolvedPath := resolvedPath
      timedOut := dt
      timeoutMs := timeoutMs }

/-- The shell executable used by the fallback probe:
`process.env.SHELL || (win32 ? 'cmd.exe' : '/bin/sh')`. -/
def shellOf (env : Env) : String :=
  jsOrStr env.shellEnv (if env.isWin then "cmd.exe" else "/bin/sh")

/-- The argument vector handed to the shell by the fallback probe; the
(possibly `undefined`) command slot is rendered as JS `join` renders it. -/
def shellArgsFor (env : Env) (command : Option String) (args : List String) :
    List String :=
  let fullCmd := String.intercalate " " (command.getD "" :: args)
  if env.isWin then ["/c", fullCmd] else ["-lc", fullCmd]

/-- `runCommandViaShell`: run the joined command line through the user's
login shell; a 127 exit is forced into a not-found result (no resolved
path, null status, descriptive error), any other outcome is passed through
with the original command slot restored. -/
def runCommandViaShell (env : Env) (command : Option String)
    (args : List String) (timeoutMs : Nat) : CommandResult :=
  let result := runCommand env (shellOf env) (shellArgsFor env command args) timeoutMs
  if result.status = some 127 then
    { result with
      command := command
      success := false
      resolvedPath := none
      status := none
      error := some ⟨(command.getD "undefined") ++ ": command not found (shell fallback)", none⟩ }
  else { result with command := command }

/-- The cascade loop over the candidate commands: return the first result
that succeeded or that carries an error whose code is not `ENOENT`;
`none` when every candidate fell through. -/
def tryCommandsLoop (env : Env) (args : List String) (timeoutMs : Nat) :
    List String → Option CommandResult
  | [] => none
  | c :: rest =>
    let result := runCommand env c args timeoutMs
    if result.success then some result
    else if (match result.error with
             | some e => e.code ≠ some "ENOENT"
             | none => false : Bool) then some result
    else tryCommandsLoop env args timeoutMs rest

/-- `tryCommands`: the provider-level probe cascade; when every candidate
fell through, fall back to the shell probe with the last element of the
command list (the `undefined` slot when the list is empty). -/
def tryCommands (env : Env) (d : CliDefinition) (timeoutMs : Nat) : CommandResult :=
  match tryCommandsLoop env d.args timeoutMs d.commands with
  | some r => r
  | none => runCommandViaShell env d.commands.getLast? d.args timeoutMs

/-- The generic status classifier (the branch of `resolveStatus` taken
when the definition supplies no override). -/
def resolveStatusGeneric (r : CommandResult) : CliStatusCode :=
  if r.success then .connected
  else if truthyOptStr r.resolvedPath then .connected
  else if r.timedOut && r.stdout ≠ "" then .connected
  else if r.status.isSome && !r.timedOut && (r.stdout ≠ "" || r.stderr ≠ "") then .connected
  else if r.error.isSome then .error
  else .missing

/-- `resolveStatus`: the provider override wins when supplied. -/
def resolveStatus (d : CliDefinition) (r : CommandResult) : CliStatusCode :=
  match d.statusResolver with
  | some f => f r
  | none => resolveStatusGeneric r

/-- `resolveMessage`: note the hard-coded branch for the provider id
`"codex"`, checked before everything else. -/
def resolveMessage (d : CliDefinition) (r : CommandResult)
    (status : CliStatusCode) : Option String :=
  if d.id = "codex" then
    if status = .connected then none
    else some "Codex CLI not detected. Install @openai/codex to enable Codex agents."
  else
    match d.messageResolver with
    | some f => f r
    | none =>
      if status = .missing then some (d.name ++ " was not found in PATH.")
      else if status = .error then
        if jsTrim r.stderr ≠ "" then some (jsTrim r.stderr)
        else if jsTrim r.stdout ≠ "" then some (jsTrim r.stdout)
        else
          match r.error with
          | some e => some e.message
          | none => none
      else none

/-- The `reason` argument of `checkProvider`. -/
inductive Reason where
  | bootstrap
  | manual
  | timeoutRetry
deriving DecidableEq, Repr

/-- Whether the just-completed check should arm a timeout retry:
`commandResult.timedOut && (resolvedPath || stdout) && opts?.allowRetry !== false`.
`allowRetry` is `none` when the caller passed no options. -/
def shouldRetryTimeout (r : CommandResult) (allowRetry : Option Bool) : Bool :=
  r.timedOut && (truthyOptStr r.resolvedPath || r.stdout ≠ "") &&
    !(allowRetry = some false)

/-- The timeout used by the scheduled retry: `Math.max(timeoutMs * 2, 12000)`. -/
def retryTimeoutMs (timeoutMs : Nat) : Nat := max (timeoutMs * 2) 12000

/-- One armed retry timer: the provider it belongs to, the `setTimeout`
handle, and the timeout the retry check will be given when it fires. -/
structure TimerEntry where
  pid : String
  tid : Nat
  retryMs : Nat
deriving DecidableEq, Repr

/-- A `checkProvider` invocation currently in flight (between its
synchronous start block and its completion). -/
structure Inflight where
  pid : String
  reason : Reason
  allowRetry : Option Bool
  timeoutMs : Nat
deriving DecidableEq, Repr

/-- The parameters of the `checkProvider` call a retry timer will make. -/
structure ScheduledCall where
  pid : String
  reason : Reason
  timeoutMs : Nat
  allowRetry : Option Bool
deriving DecidableEq, Repr

/-- The orchestrator's retry bookkeeping, plus the set of `setTimeout`
timers that are scheduled in the runtime and have been neither fired nor
cancelled (`live`), and the multiset of in-flight checks.  `timers` models
the `Map` (at most one entry per key, by overwrite); `live` models the
actual runtime timers — `Map.set` over an existing key drops the old
handle without `clearTimeout`, so the old timer stays live. -/
structure SchedState where
  pending : List String
  timers : List (String × Nat)
  live : List TimerEntry
  inflight : List Inflight
  nextId : Nat
deriving DecidableEq, Repr

/-- `Map.get`. -/
def mapGet (m : List (String × Nat)) (k : String) : Option Nat :=
  (m.find? (·.1 = k)).map (·.2)

/-- `Map.set`: overwrite the entry for the key. -/
def mapSet (m : List (String × Nat)) (k : String) (v : Nat) :
    List (String × Nat) :=
  (k, v) :: m.filter (·.1 ≠ k)

/-- `clearTimeoutRetry`: cancel the mapped timer for the provider when one
exists (`clearTimeout` removes it from the live set), drop the map entry,
and clear the pending flag. -/
def clearTimeoutRetry (s : SchedState) (pid : String) : SchedState :=
  match mapGet s.timers pid with
  | some tid =>
    { s with
      live := s.live.filter (fun e => !(e.pid = pid && e.tid = tid))
      timers := s.timers.filter (·.1 ≠ pid)
      pending := s.pending.filter (· ≠ pid) }
  | none => { s with pending := s.pending.filter (· ≠ pid) }

/-- The synchronous prefix of `checkProvider` (lines 104-112): a reason
other than `timeout-retry` cancels a pending retry, but only when the
pending flag is set for the provider. -/
def checkStartStep (s : SchedState) (pid : String) (reason : Reason)
    (allowRetry : Option Bool) (timeoutMs : Nat) : SchedState :=
  let s1 :=
    if reason ≠ Reason.timeoutRetry && s.pending.contains pid then
      clearTimeoutRetry s pid
    else s
  { s1 with inflight := ⟨pid, reason, allowRetry, timeoutMs⟩ :: s1.inflight }

/-- The synchronous suffix of `checkProvider` (lines 136-152): decide
whether to arm a retry timer, and if so record the scheduled call.
`timers.set` overwrites any existing map entry without cancelling its
timer. -/
def armDecision (s : SchedState) (pid : String) (timeoutMs : Nat)
    (r : CommandResult) (allowRetry : Option Bool) :
    SchedState × Option ScheduledCall :=
  if shouldRetryTimeout r allowRetry && !(s.pending.contains pid) then
    let rt := retryTimeoutMs timeoutMs
    ({ s with
        pending := pid :: s.pending
        timers := mapSet s.timers pid s.nextId
        live := ⟨pid, s.nextId, rt⟩ :: s.live
        nextId := s.nextId + 1 },
      some ⟨pid, Reason.timeoutRetry, rt, some false⟩)
  else (s, none)

/-- Events of the orchestration, each one atomic on the JS event loop. -/
inductive Event where
  /-- An external `checkProvider` call begins (reason `bootstrap` or
  `manual`). -/
  | checkStart (pid : String) (reason : Reason) (allowRetry : Option Bool)
      (timeoutMs : Nat)
  /-- A live retry timer fires: its callback deletes the map entry for its
  provider and begins the retry check. -/
  | timerFire (e : TimerEntry)
  /-- An in-flight check completes with the given probe result; for a
  timer-launched retry the attached `finally` then clears the pending
  flag. -/
  | checkFinish (f : Inflight) (r : CommandResult)
deriving DecidableEq, Repr

/-- Guard: only events the runtime can actually deliver. -/
def validEvent (s : SchedState) : Event → Bool
  | .checkStart _ reason _ _ => reason ≠ Reason.timeoutRetry
  | .timerFire e => s.live.contains e
  | .checkFinish f _ => s.inflight.contains f

/-- Effect of one event on the scheduler state. -/
def applyEvent (s : SchedState) : Event → SchedState
  | .checkStart pid reason allowRetry timeoutMs =>
    checkStartStep s pid reason allowRetry timeoutMs
  | .timerFire e =>
    { s with
      live := s.live.erase e
      timers := s.timers.filter (·.1 ≠ e.pid)
      inflight := ⟨e.pid, Reason.timeoutRetry, some false, e.retryMs⟩ :: s.inflight }
  | .checkFinish f r =>
    let s1 := { s with inflight := s.inflight.erase f }
    let s2 := (armDecision s1 f.pid f.timeoutMs r f.allowRetry).1
    if f.reason = Reason.timeoutRetry then
      { s2 with pending := s2.pending.filter (· ≠ f.pid) }
    else s2

/-- Run a trace of events from a state, refusing invalid events. -/
def runTrace (s : SchedState) : List Event → Option SchedState
  | [] => some s
  | e :: es =>
    if validEvent s e then runTrace (applyEvent s e) es else none

/-- The initial scheduler state: nothing pending, no timers, no checks. -/
def schedInit : SchedState := ⟨[], [], [], [], 0⟩

/-- The persisted per-provider status record. -/
structure ProviderStatus where
  installed : Bool
  path : Option String
  version : Option String
  lastChecked : Nat
deriving DecidableEq, Repr

/-- An application window, as seen by the broadcast step. -/
structure Window where
  wid : Nat
deriving DecidableEq, Repr

/-- The event payload sent to each window. -/
structure StatusPayload where
  providerId : String
  status : ProviderStatus
deriving DecidableEq, Repr

/-- The status record built by `cacheStatus`. -/
def mkProviderStatus (now : Nat) (r : CommandResult) (code : CliStatusCode) :
    ProviderStatus :=
  { installed := decide (code = .connected)
    path := r.resolvedPath
    version := r.version
    lastChecked := now }

/-- `Map.set` on the status store. -/
def storeSet (store : List (String × ProviderStatus)) (k : String)
    (v : ProviderStatus) : List (String × ProviderStatus) :=
  (k, v) :: store.filter (·.1 ≠ k)

/-- Store lookup. -/
def storeGet (store : List (String × ProviderStatus)) (k : String) :
    Option ProviderStatus :=
  (store.find? (·.1 = k)).map (·.2)

/-- `emitStatusUpdate`: the same payload is sent to every open window. -/
def emitStatusUpdate (windows : List Window) (pid : String)
    (status : ProviderStatus) : List (Window × StatusPayload) :=
  windows.map (fun w => (w, ⟨pid, status⟩))

/-- `cacheStatus`: build the status record, overwrite the store entry, and
broadcast the same record to every window. -/
def cacheStatus (store : List (String × ProviderStatus))
    (windows : List Window) (now : Nat) (pid : String) (r : CommandResult)
    (code : CliStatusCode) :
    List (String × ProviderStatus) × List (Window × StatusPayload) :=
  let status := mkProviderStatus now r code
  (storeSet store pid status, emitStatusUpdate windows pid status)

/-! ### Claim-side specification functions -/

/-- The status policy exactly as claim C1 words it (in particular
"non-null resolved path", where the source tests JS truthiness). -/
def policyStatusSpec (r : CommandResult) : CliStatusCode :=
  if r.success then .connected
  else if r.resolvedPath ≠ none then .connected
  else if r.timedOut = true ∧ r.stdout ≠ "" then .connected
  else if r.status ≠ none ∧ r.timedOut = false ∧ (r.stdout ≠ "" ∨ r.stderr ≠ "") then .connected
  else if r.error ≠ none then .error
  else .missing

/-- A probe result that stops the cascade: it succeeded, or it carries an
error whose code is not `ENOENT`. -/
def decisive (r : CommandResult) : Bool :=
  r.success ||
    (match r.error with
     | some e => e.code ≠ some "ENOENT"
     | none => false)

/-- Message policy as the amended claim C8 words it, for providers other
than `"codex"`: the override resolver when supplied, else the generic
not-found text for `missing`, else for `error` the trimmed stderr if
non-empty, else the trimmed stdout if non-empty, else the attached error's
message, else null. -/
def messagePolicySpec (d : CliDefinition) (r : CommandResult)
    (status : CliStatusCode) : Option String :=
  match d.messageResolver with
  | some f => f r
  | none =>
    if status = .missing then some (d.name ++ " was not found in PATH.")
    else if status = .error then
      if jsTrim r.stderr ≠ "" then some (jsTrim r.stderr)
      else if jsTrim r.stdout ≠ "" then some (jsTrim r.stdout)
      else
        match r.error with
        | some e => some e.message
        | none => none
    else none

/-! ### Concrete inputs used by witnesses and counterexamples -/

/-- A plain provider definition with one command and no overrides. -/
def c1Def : CliDefinition := ⟨"tool", "Tool", ["tool"], ["--version"], none, none⟩

/-- A successful probe result. -/
def c1Result : CommandResult :=
  ⟨some "tool", true, none, "v1.2.3", "", some 0, some "1.2.3", some "/usr/bin/tool", false, 3000⟩

/-- A provider definition with an empty command list. -/
def c2Def : CliDefinition := ⟨"p", "P", [], ["--version"], none, none⟩

/-- An environment where the shell resolves but reports
command-not-found (exit 127) for the probed line. -/
def c2Env : Env :=
  { resolveRaw := fun c => if c = "/bin/sh" then some "/bin/sh\n" else none
    spawn := fun _ _ => .exited (some 127) "" "sh: --version: command not found\n" false
    shellEnv := none
    comSpec := none
    isWin := false }

/-- A provider whose single candidate is nowhere on `PATH`. -/
def c3Def : CliDefinition := ⟨"p", "P", ["p"], ["--version"], none, none⟩

/-- An environment where path resolution fails everywhere, spawning the
candidate fails with `ENOENT`, and the shell fallback exits 127. -/
def c3Env : Env :=
  { resolveRaw := fun _ => none
    spawn := fun c _ =>
      if c = "p" then .spawnError ⟨"spawn p ENOENT", some "ENOENT"⟩ "" "" false
      else .exited (some 127) "" "sh: p: command not found\n" false
    shellEnv := none
    comSpec := none
    isWin := false }

/-- Provider `"x"` with one command, used by the retry-race trace. -/
def raceDef : CliDefinition := ⟨"x", "X", ["x"], ["--version"], none, none⟩

/-- An environment where the probed tool resolves on `PATH` but every
spawn outlives its timeout and is killed (exit code `null`). -/
def raceEnv : Env :=
  { resolveRaw := fun _ => some "/usr/bin/x\n"
    spawn := fun _ _ => .exited none "" "" true
    shellEnv := none
    comSpec := none
    isWin := false }

/-- The timed-out probe result of a 3000 ms check in `raceEnv`. -/
def raceResult : CommandResult := tryCommands raceEnv raceDef 3000

/-- The timed-out probe result of the 12000 ms retry check in `raceEnv`. -/
def raceResultLong : CommandResult := tryCommands raceEnv raceDef 12000

/-- An event trace realizable on the JS event loop (all probe durations
are below the checks' timeouts and each timer fires 1500 ms after it is
armed): check A times out and arms timer `T0`; `T0` fires and launches
retry R (in flight until after the later arms); manual check M starts
while R is in flight and clears the pending flag; manual check N starts
while the flag is clear; M times out and arms `T1`; R completes and its
`finally` wipes the pending flag that now belongs to `T1`; N times out
and arms `T2` while `T1` is still scheduled. -/
def raceTrace : List Event :=
  [ .checkStart "x" .manual none 3000,
    .checkFinish ⟨"x", .manual, none, 3000⟩ raceResult,
    .timerFire ⟨"x", 0, 12000⟩,
    .checkStart "x" .manual none 3000,
    .checkStart "x" .manual none 3000,
    .checkFinish ⟨"x", .manual, none, 3000⟩ raceResult,
    .checkFinish ⟨"x", .timeoutRetry, some false, 12000⟩ raceResultLong,
    .checkFinish ⟨"x", .manual, none, 3000⟩ raceResult ]

/-- A timed-out probe result with partial evidence (resolved path and
partial stdout). -/
def c5Result : CommandResult :=
  ⟨some "x", false, some ⟨"Command timeout", none⟩, "Loading...", "", none, none,
    some "/usr/bin/x", true, 3000⟩

/-- A provider with two candidate commands. -/
def c6Def : CliDefinition := ⟨"q", "Q", ["a", "b"], ["--version"], none, none⟩

/-- An environment where candidate `a` is missing (`ENOENT`) and
candidate `b` succeeds. -/
def c6Env : Env :=
  { resolveRaw := fun _ => none
    spawn := fun c _ =>
      if c = "a" then .spawnError ⟨"spawn a ENOENT", some "ENOENT"⟩ "" "" false
      else if c = "b" then .exited (some 0) "b 2.0.1" "" false
      else .exited (some 127) "" "" false
    shellEnv := none
    comSpec := none
    isWin := false }

/-- An environment where the probe resolves and exits 0 printing
`"v2.3.1"`. -/
def c7Env : Env :=
  { resolveRaw := fun _ => some "/usr/bin/tool\n"
    spawn := fun _ _ => .exited (some 0) "v2.3.1" "" false
    shellEnv := none
    comSpec := none
    isWin := false }

/-- The provider definition with id `"codex"` exactly as the engine
builds it from the registry (no override resolvers). -/
def codexDef : CliDefinition := ⟨"codex", "Codex", ["codex"], ["--version"], none, none⟩

/-- A probe result with no evidence at all (classified `missing`). -/
def codexResult : CommandResult :=
  ⟨some "codex", false, none, "", "", none, none, none, false, 3000⟩

/-- A plain provider used by the amended-C8 witness. -/
def c8Def : CliDefinition := ⟨"claude", "Claude", ["claude"], ["--version"], none, none⟩

/-- An error-classified result with stderr text. -/
def c8Result : CommandResult :=
  ⟨some "claude", false, some ⟨"boom", none⟩, "", " broken \n", none, none, none, false, 3000⟩

/-- An environment whose login shell is `/bin/zsh`, resolvable on `PATH`,
where the probed line exits 1 (a non-127 shell-fallback outcome). -/
def c9Env : Env :=
  { resolveRaw := fun _ => some "/bin/zsh\n"
    spawn := fun _ _ => .exited (some 1) "usage" "" false
    shellEnv := some "/bin/zsh"
    comSpec := none
    isWin := false }

/-- Two open windows for the broadcast witness. -/
def c10Windows : List Window := [⟨0⟩, ⟨1⟩]

/-- A probe result with a resolved path and a version. -/
def c10Result : CommandResult :=
  ⟨some "tool", false, none, "", "err", some 2, some "0.4.0", some "/usr/bin/tool", false, 3000⟩

/-! ### Helper lemmas -/

/-- JS truthiness of a `string | null` value coincides with non-nullness
as long as the value is not the empty string. -/
theorem truthyOptStr_eq_ne_none {o : Option String} (h : o ≠ some "") :
    truthyOptStr o = decide (o ≠ none) := by
  cases o with
  | none => rfl
  | some s =>
    have hs : s ≠ "" := by
      intro hs'
      exact h (by rw [hs'])
    simp [truthyOptStr, hs]

/-- The head of a list filtered of empties is never the empty string. -/
theorem head?_filter_ne_empty (l : List String) :
    (l.filter (· ≠ "")).head? ≠ some "" := by
  induction l with
  | nil => simp
  | cons a t ih =>
    by_cases ha : a = ""
    · simpa [List.filter_cons, ha] using ih
    · simp [List.filter_cons, ha]

/-- Path resolution never produces an empty-string path: empty lines are
filtered before the first line is taken. -/
theorem resolveCommandPath_ne_empty (env : Env) (c : String) :
    resolveCommandPath env c ≠ some "" := by
  unfold resolveCommandPath
  cases h : env.resolveRaw c with
  | none => simp
  | some raw => exact head?_filter_ne_empty _

/-- Every probe result of `runCommand` carries the path resolution of the
probed command. -/
theorem runCommand_resolvedPath (env : Env) (c : String) (args : List String)
    (t : Nat) : (runCommand env c args t).resolvedPath = resolveCommandPath env c := by
  cases hs : env.spawn (spawnPlan env c args).1 (spawnPlan env c args).2 <;>
    simp [runCommand, hs]

/-- The cascade loop returns the first decisive probe result. -/
theorem tryCommandsLoop_eq_find (env : Env) (args : List String) (t : Nat) :
    ∀ cs : List String,
      tryCommandsLoop env args t cs =
        (cs.map (fun c => runCommand env c args t)).find? decisive := by
  intro cs
  induction cs with
  | nil => rfl
  | cons c rest ih =>
    simp only [tryCommandsLoop, List.map, List.find?]
    by_cases h1 : (runCommand env c args t).success = true
    · simp [decisive, h1]
    · cases he : (runCommand env c args t).error with
      | none => simp [decisive, h1, he, ih]
      | some e =>
        by_cases h2 : e.code = some "ENOENT"
        · simp [decisive, h1, he, h2, ih]
        · simp [decisive, h1, he, h2]

/-! ### Claims -/

/-- C1: for every provider definition without a status-override resolver
and every command result, the classifier follows the ordered policy
(success, then resolved path, then timed-out with stdout, then exited with
output, then error-vs-missing); in particular `success=true` always gives
`connected` and a timed-out result with non-empty stdout is never
`error`.  The hypothesis `hpath` excludes the empty-string resolved path,
which `resolveCommandPath` can never produce
(`resolveCommandPath_ne_empty`). -/
theorem resolveStatus_matches_policy (d : CliDefinition) (r : CommandResult)
    (hres : d.statusResolver = none) (hpath : r.resolvedPath ≠ some "") :
    resolveStatus d r = policyStatusSpec r ∧
    (r.success = true → resolveStatus d r = .connected) ∧
    (r.timedOut = true → r.stdout ≠ "" → resolveStatus d r ≠ .error) := by
  have hgen : resolveStatus d r = resolveStatusGeneric r := by
    unfold resolveStatus
    rw [hres]
  have ht := truthyOptStr_eq_ne_none hpath
  refine ⟨?_, ?_, ?_⟩
  · rw [hgen]
    unfold resolveStatusGeneric policyStatusSpec
    rw [ht]
    by_cases h1 : r.success = true <;>
    by_cases h2 : r.resolvedPath = none <;>
    by_cases h3 : r.timedOut = true <;>
    by_cases h4 : r.stdout = "" <;>
    by_cases h5 : r.stderr = "" <;>
    by_cases h6 : r.status = none <;>
    by_cases h7 : r.error = none <;>
    simp_all [Option.isSome_iff_ne_none]
  · intro hs
    rw [hgen]
    unfold resolveStatusGeneric
    simp [hs]
  · intro h3 h4
    rw [hgen]
    unfold resolveStatusGeneric
    split_ifs <;> simp_all

/-- C1 witness: the policy theorem instantiated at a successful probe of
a plain provider. -/
theorem resolveStatus_matches_policy_witness :
    resolveStatus c1Def c1Result = policyStatusSpec c1Result ∧
    (c1Result.success = true → resolveStatus c1Def c1Result = .connected) ∧
    (c1Result.timedOut = true → c1Result.stdout ≠ "" →
      resolveStatus c1Def c1Result ≠ .error) :=
  resolveStatus_matches_policy c1Def c1Result rfl (by decide)

/-- C4: the retry-bookkeeping invariant fails on a realizable event
trace.  After `raceTrace`, two retry timers for provider `"x"` are
simultaneously scheduled and uncancelled (handles 1 and 2), because a
retry check's `finally` wipes a pending flag that a newer arming set, a
later arming then overwrites the map entry without `clearTimeout`, and a
manual check started against the stale-cleared flag cancels nothing —
the final conjunct shows that even a fresh manual check leaves timer 1
live. -/
theorem retry_timer_race :
    ∃ s, runTrace schedInit raceTrace = some s ∧
      (⟨"x", 1, 12000⟩ : TimerEntry) ∈ s.live ∧
      (⟨"x", 2, 12000⟩ : TimerEntry) ∈ s.live ∧
      (⟨"x", 1, 12000⟩ : TimerEntry) ∈
        (applyEvent s (.checkStart "x" .manual none 3000)).live := by
  refine ⟨_, rfl, ?_, ?_, ?_⟩ <;> decide

/-- C5: a retry is scheduled by the post-check block iff the probe timed
out, had a resolved path or non-empty stdout, the caller did not pass
`allowRetry = false`, and no retry is already pending for the provider;
the scheduled call is `checkProvider` with reason `timeout-retry`,
timeout `max(2 * original, 12000)`, and `allowRetry = false` (so a check
with retries disabled never arms another hop).  As in C1, `hpath` is
discharged by `resolveCommandPath_ne_empty` for every result the probe
machinery can produce. -/
theorem armDecision_retry_iff (s : SchedState) (pid : String) (t : Nat)
    (r : CommandResult) (allow : Option Bool) (hpath : r.resolvedPath ≠ some "") :
    ((armDecision s pid t r allow).2.isSome ↔
      (r.timedOut = true ∧ (r.resolvedPath ≠ none ∨ r.stdout ≠ "") ∧
        allow ≠ some false ∧ s.pending.contains pid = false)) ∧
    (∀ c, (armDecision s pid t r allow).2 = some c →
      c = ⟨pid, Reason.timeoutRetry, max (t * 2) 12000, some false⟩) ∧
    (allow = some false → (armDecision s pid t r allow).2 = none) := by
  have ht := truthyOptStr_eq_ne_none hpath
  unfold armDecision shouldRetryTimeout retryTimeoutMs
  rw [ht]
  by_cases h1 : r.timedOut = true <;>
  by_cases h2 : r.resolvedPath = none <;>
  by_cases h3 : r.stdout = "" <;>
  by_cases h4 : allow = some false <;>
  by_cases h5 : s.pending.contains pid = true <;>
  simp_all

/-- C5 witness: a 3000 ms check that timed out with partial evidence arms
exactly one retry at 12000 ms with retries disabled. -/
theorem armDecision_retry_iff_witness :
    ((armDecision schedInit "x" 3000 c5Result none).2.isSome ↔
      (c5Result.timedOut = true ∧ (c5Result.resolvedPath ≠ none ∨ c5Result.stdout ≠ "") ∧
        (none : Option Bool) ≠ some false ∧ schedInit.pending.contains "x" = false)) ∧
    (∀ c, (armDecision schedInit "x" 3000 c5Result none).2 = some c →
      c = ⟨"x", Reason.timeoutRetry, max (3000 * 2) 12000, some false⟩) ∧
    ((none : Option Bool) = some false →
      (armDecision schedInit "x" 3000 c5Result none).2 = none) :=
  armDecision_retry_iff schedInit "x" 3000 c5Result none (by decide)

/-- C6: for a provider with a non-empty command list the cascade returns
the first decisive candidate result — the first success, or the first
failure carrying an error whose code is not `ENOENT` — and when every
candidate falls through it invokes the shell fallback with the last
candidate of the list. -/
theorem tryCommands_cascade (env : Env) (d : CliDefinition) (t : Nat)
    (h : d.commands ≠ []) :
    tryCommands env d t =
      (match (d.commands.map (fun c => runCommand env c d.args t)).find? decisive with
       | some r => r
       | none => runCommandViaShell env d.commands.getLast? d.args t) ∧
    (∀ r : CommandResult, decisive r = true ↔
      (r.success = true ∨ ∃ e, r.error = some e ∧ e.code ≠ some "ENOENT")) ∧
    ((∀ r ∈ d.commands.map (fun c => runCommand env c d.args t), decisive r = false) →
      tryCommands env d t = runCommandViaShell env d.commands.getLast? d.args t) ∧
    (∃ last, d.commands.getLast? = some last) := by
  refine ⟨?_, ?_, ?_, ?_⟩
  · unfold tryCommands
    rw [tryCommandsLoop_eq_find]
  · intro r
    cases he : r.error with
    | none => simp [decisive, he]
    | some e => by_cases hc : e.code = some "ENOENT" <;> simp [decisive, he, hc]
  · intro hall
    unfold tryCommands
    rw [tryCommandsLoop_eq_find]
    have hnone : (d.commands.map (fun c => runCommand env c d.args t)).find? decisive = none := by
      rw [List.find?_eq_none]
      intro x hx
      simp [hall x hx]
    rw [hnone]
  · cases hc : d.commands with
    | nil => exact absurd hc h
    | cons a rest => simp [List.getLast?]

/-- C6 witness: the cascade theorem instantiated at a provider whose
first candidate is missing (`ENOENT`) and whose second succeeds. -/
theorem tryCommands_cascade_witness :
    (tryCommands c6Env c6Def 3000 =
      (match (c6Def.commands.map (fun c => runCommand c6Env c c6Def.args 3000)).find? decisive with
       | some r => r
       | none => runCommandViaShell c6Env c6Def.commands.getLast? c6Def.args 3000)) ∧
    (∀ r : CommandResult, decisive r = true ↔
      (r.success = true ∨ ∃ e, r.error = some e ∧ e.code ≠ some "ENOENT")) ∧
    ((∀ r ∈ c6Def.commands.map (fun c => runCommand c6Env c c6Def.args 3000),
        decisive r = false) →
      tryCommands c6Env c6Def 3000 =
        runCommandViaShell c6Env c6Def.commands.getLast? c6Def.args 3000) ∧
    (∃ last, c6Def.commands.getLast? = some last) :=
  tryCommands_cascade c6Env c6Def 3000 (by decide)

/-- C7: for every probe whose spawn reaches process exit, the result's
`success` field is true iff it did not time out and the exit code is 0,
its `version` field is the first `\d+\.\d+(\.\d+)?` match in stdout and
otherwise in stderr (else null), and a successful result classifies as
`connected`. -/
theorem runCommand_exit_contract (env : Env) (command : String)
    (args : List String) (t : Nat) (code : Option Int) (out errS : String) (dt : Bool)
    (hspawn : env.spawn (spawnPlan env command args).1 (spawnPlan env command args).2 =
      .exited code out errS dt) :
    ((runCommand env command args t).success = true ↔ (dt = false ∧ code = some 0)) ∧
    (runCommand env command args t).version = (extractVersion out).or (extractVersion errS) ∧
    ((runCommand env command args t).success = true →
      resolveStatusGeneric (runCommand env command args t) = .connected) := by
  refine ⟨?_, ?_, ?_⟩
  · simp [runCommand, hspawn]
  · simp [runCommand, hspawn]
  · intro hs
    unfold resolveStatusGeneric
    simp [hs]

/-- C7 witness: a probe exiting 0 with stdout `"v2.3.1"` yields
`success = true` and `version = "2.3.1"` and classifies as `connected`. -/
theorem runCommand_exit_contract_witness :
    (runCommand c7Env "tool" ["--version"] 3000).success = true ∧
    (runCommand c7Env "tool" ["--version"] 3000).version = some "2.3.1" ∧
    resolveStatusGeneric (runCommand c7Env "tool" ["--version"] 3000) = .connected := by
  have h := runCommand_exit_contract c7Env "tool" ["--version"] 3000 (some 0) "v2.3.1" "" false rfl
  have hs : (runCommand c7Env "tool" ["--version"] 3000).success = true := h.1.mpr ⟨rfl, rfl⟩
  refine ⟨hs, ?_, h.2.2 hs⟩
  rw [h.2.1]
  decide

/-- A result whose resolved path is a non-empty string classifies as
`connected`. -/
theorem resolveStatusGeneric_connected_of_path {r : CommandResult} {p : String}
    (hp : r.resolvedPath = some p) (hne : p ≠ "") :
    resolveStatusGeneric r = .connected := by
  unfold resolveStatusGeneric
  have ht : truthyOptStr r.resolvedPath = true := by simp [hp, truthyOptStr, hne]
  cases hsucc : r.success <;> simp [hsucc, ht]

/-- A result carrying an error object never classifies as `missing`. -/
theorem resolveStatusGeneric_ne_missing_of_error {r : CommandResult}
    (he : r.error.isSome = true) : resolveStatusGeneric r ≠ .missing := by
  unfold resolveStatusGeneric
  split_ifs <;> simp_all

/-- C9: every non-127 shell-fallback outcome keeps the resolved path of
the shell executable itself; hence whenever the shell binary is
resolvable, a non-127 outcome classifies as `connected` through the
resolved-path rule and no shell-fallback outcome (127 included)
classifies as `missing`. -/
theorem shellFallback_keeps_shell_path (env : Env) (cmd : Option String)
    (args : List String) (t : Nat) :
    ((runCommand env (shellOf env) (shellArgsFor env cmd args) t).status ≠ some 127 →
      (runCommandViaShell env cmd args t).resolvedPath =
        resolveCommandPath env (shellOf env)) ∧
    (∀ p, resolveCommandPath env (shellOf env) = some p →
      ((runCommand env (shellOf env) (shellArgsFor env cmd args) t).status ≠ some 127 →
        resolveStatusGeneric (runCommandViaShell env cmd args t) = .connected) ∧
      resolveStatusGeneric (runCommandViaShell env cmd args t) ≠ .missing) := by
  constructor
  · intro h127
    simp only [runCommandViaShell]
    rw [if_neg h127]
    exact runCommand_resolvedPath env (shellOf env) (shellArgsFor env cmd args) t
  · intro p hp
    have hpne : p ≠ "" := by
      intro h0
      exact resolveCommandPath_ne_empty env (shellOf env) (by rw [hp, h0])
    by_cases h127 : (runCommand env (shellOf env) (shellArgsFor env cmd args) t).status = some 127
    · have hmiss : resolveStatusGeneric (runCommandViaShell env cmd args t) ≠ .missing := by
        apply resolveStatusGeneric_ne_missing_of_error
        simp only [runCommandViaShell]
        rw [if_pos h127]
        rfl
      exact ⟨fun hne => absurd h127 hne, hmiss⟩
    · have hrp : (runCommandViaShell env cmd args t).resolvedPath = some p := by
        simp only [runCommandViaShell]
        rw [if_neg h127]
        exact (runCommand_resolvedPath env (shellOf env) (shellArgsFor env cmd args) t).trans hp
      have hconn := resolveStatusGeneric_connected_of_path hrp hpne
      exact ⟨fun _ => hconn, by rw [hconn]; simp⟩

/-- C9 witness: a shell-fallback probe through a resolvable `/bin/zsh`
that exits 1 keeps the shell's path and classifies as `connected`. -/
theorem shellFallback_keeps_shell_path_witness :
    (runCommandViaShell c9Env (some "tool") ["--version"] 3000).resolvedPath = some "/bin/zsh" ∧
    resolveStatusGeneric (runCommandViaShell c9Env (some "tool") ["--version"] 3000) = .connected ∧
    resolveStatusGeneric (runCommandViaShell c9Env (some "tool") ["--version"] 3000) ≠ .missing := by
  have h := shellFallback_keeps_shell_path c9Env (some "tool") ["--version"] 3000
  have h2 := h.2 "/bin/zsh" (by decide)
  refine ⟨?_, h2.1 (by decide), h2.2⟩
  rw [h.1 (by decide)]
  decide

/-- C10: a completed check persists exactly
`{installed, path, version, lastChecked}` where `installed` is true iff
the classification is `connected` (`missing`, `needs_key` and `error`
all persist false), `path` and `version` are copied from the command
result, and the very same record is broadcast to every open window. -/
theorem cacheStatus_broadcast (store : List (String × ProviderStatus))
    (windows : List Window) (now : Nat) (pid : String) (r : CommandResult)
    (code : CliStatusCode) :
    storeGet (cacheStatus store windows now pid r code).1 pid =
      some (mkProviderStatus now r code) ∧
    ((mkProviderStatus now r code).installed = true ↔ code = .connected) ∧
    (code = .missing ∨ code = .needs_key ∨ code = .error →
      (mkProviderStatus now r code).installed = false) ∧
    (mkProviderStatus now r code).path = r.resolvedPath ∧
    (mkProviderStatus now r code).version = r.version ∧
    (mkProviderStatus now r code).lastChecked = now ∧
    (cacheStatus store windows now pid r code).2 =
      windows.map (fun w => (w, ⟨pid, mkProviderStatus now r code⟩)) := by
  refine ⟨?_, ?_, ?_, rfl, rfl, rfl, rfl⟩
  · simp [cacheStatus, storeGet, storeSet, List.find?]
  · simp [mkProviderStatus]
  · intro hc
    rcases hc with h | h | h <;> simp [mkProviderStatus, h]

/-- C10 witness: the broadcast theorem instantiated at an
`error`-classified result and two open windows. -/
theorem cacheStatus_broadcast_witness :
    storeGet (cacheStatus [] c10Windows 42 "tool" c10Result .error).1 "tool" =
      some (mkProviderStatus 42 c10Result .error) ∧
    ((mkProviderStatus 42 c10Result .error).installed = true ↔ CliStatusCode.error = .connected) ∧
    (CliStatusCode.error = .missing ∨ CliStatusCode.error = .needs_key ∨
        CliStatusCode.error = .error →
      (mkProviderStatus 42 c10Result .error).installed = false) ∧
    (mkProviderStatus 42 c10Result .error).path = c10Result.resolvedPath ∧
    (mkProviderStatus 42 c10Result .error).version = c10Result.version ∧
    (mkProviderStatus 42 c10Result .error).lastChecked = 42 ∧
    (cacheStatus [] c10Windows 42 "tool" c10Result .error).2 =
      c10Windows.map (fun w => (w, ⟨"tool", mkProviderStatus 42 c10Result .error⟩)) :=
  cacheStatus_broadcast [] c10Windows 42 "tool" c10Result .error

/-- C2 counterexample: for a provider with an empty command list whose
shell fallback reports command-not-found (exit 127), the check resolves
to `error`, not `missing` — the forced not-found result carries an error
object and the classifier maps an error-carrying result to `error`. -/
theorem emptyCommands_not_missing :
    resolveStatus c2Def (tryCommands c2Env c2Def 3000) = .error ∧
    resolveStatus c2Def (tryCommands c2Env c2Def 3000) ≠ .missing := by
  constructor <;> decide

/-- C2 amended: for every provider with an empty command list the check
is total (the cascade is a total function, so `checkProvider` cannot
throw) and degenerates to the shell fallback with the `undefined`
command slot; whenever that shell invocation exits 127 without timing
out, the check resolves to `error` with no resolved path and an attached
`"undefined: command not found (shell fallback)"` error. -/
theorem emptyCommands_shell_error (env : Env) (d : CliDefinition) (t : Nat)
    (hcmds : d.commands = []) (hres : d.statusResolver = none)
    (hsh : (runCommand env (shellOf env) (shellArgsFor env none d.args) t).status = some 127)
    (hto : (runCommand env (shellOf env) (shellArgsFor env none d.args) t).timedOut = false) :
    (tryCommands env d t).resolvedPath = none ∧
    (tryCommands env d t).success = false ∧
    (tryCommands env d t).error =
      some ⟨"undefined: command not found (shell fallback)", none⟩ ∧
    resolveStatus d (tryCommands env d t) = .error := by
  have hrun : tryCommands env d t = runCommandViaShell env none d.args t := by
    unfold tryCommands
    rw [hcmds]
    rfl
  have hforced : runCommandViaShell env none d.args t =
      { runCommand env (shellOf env) (shellArgsFor env none d.args) t with
        command := none
        success := false
        resolvedPath := none
        status := none
        error := some ⟨"undefined: command not found (shell fallback)", none⟩ } := by
    simp only [runCommandViaShell]
    rw [if_pos hsh]
    rfl
  rw [hrun, hforced]
  refine ⟨rfl, rfl, rfl, ?_⟩
  unfold resolveStatus
  rw [hres]
  unfold resolveStatusGeneric
  simp [truthyOptStr, hto]

/-- C2 amended witness: the amended theorem instantiated at the concrete
empty-command provider and 127-reporting shell environment. -/
theorem emptyCommands_shell_error_witness :
    (tryCommands c2Env c2Def 3000).resolvedPath = none ∧
    (tryCommands c2Env c2Def 3000).success = false ∧
    (tryCommands c2Env c2Def 3000).error =
      some ⟨"undefined: command not found (shell fallback)", none⟩ ∧
    resolveStatus c2Def (tryCommands c2Env c2Def 3000) = .error :=
  emptyCommands_shell_error c2Env c2Def 3000 rfl rfl (by decide) (by decide)

/-- C3 counterexample: when a probe is nowhere on `PATH` (resolution
null, every spawn `ENOENT`) and the shell fallback also reports
not-found (exit 127 with `"sh: p: command not found"` on stderr), the
classification is `error` — not `missing` — and the resolved message is
the shell's trimmed stderr, not `"P was not found in PATH."`. -/
theorem notFound_not_missing :
    resolveStatus c3Def (tryCommands c3Env c3Def 3000) = .error ∧
    resolveStatus c3Def (tryCommands c3Env c3Def 3000) ≠ .missing ∧
    resolveMessage c3Def (tryCommands c3Env c3Def 3000)
        (resolveStatus c3Def (tryCommands c3Env c3Def 3000)) =
      some "sh: p: command not found" ∧
    resolveMessage c3Def (tryCommands c3Env c3Def 3000)
        (resolveStatus c3Def (tryCommands c3Env c3Def 3000)) ≠
      some "P was not found in PATH." := by
  refine ⟨by decide, by decide, by decide, by decide⟩

/-- C3 amended: for every provider (no overrides, id not `"codex"`)
whose candidates all fail with `ENOENT` spawn errors and whose shell
fallback exits 127 without timing out, the final result has no resolved
path, classifies as `error`, and the resolved message is the shell run's
trimmed stderr if non-empty, else its trimmed stdout if non-empty, else
the attached `"<cmd>: command not found (shell fallback)"` error
message. -/
theorem notFound_shell_error (env : Env) (d : CliDefinition) (t : Nat)
    (hres : d.statusResolver = none) (hmsg : d.messageResolver = none)
    (hid : d.id ≠ "codex")
    (hall : ∀ c ∈ d.commands, (runCommand env c d.args t).success = false ∧
      ∃ e, (runCommand env c d.args t).error = some e ∧ e.code = some "ENOENT")
    (hsh : (runCommand env (shellOf env)
      (shellArgsFor env d.commands.getLast? d.args) t).status = some 127)
    (hto : (runCommand env (shellOf env)
      (shellArgsFor env d.commands.getLast? d.args) t).timedOut = false) :
    (tryCommands env d t).resolvedPath = none ∧
    resolveStatus d (tryCommands env d t) = .error ∧
    resolveMessage d (tryCommands env d t) (resolveStatus d (tryCommands env d t)) =
      (if jsTrim (runCommand env (shellOf env)
          (shellArgsFor env d.commands.getLast? d.args) t).stderr ≠ "" then
        some (jsTrim (runCommand env (shellOf env)
          (shellArgsFor env d.commands.getLast? d.args) t).stderr)
      else if jsTrim (runCommand env (shellOf env)
          (shellArgsFor env d.commands.getLast? d.args) t).stdout ≠ "" then
        some (jsTrim (runCommand env (shellOf env)
          (shellArgsFor env d.commands.getLast? d.args) t).stdout)
      else some ((d.commands.getLast?.getD "undefined") ++
        ": command not found (shell fallback)")) := by
  have hloop : tryCommandsLoop env d.args t d.commands = none := by
    rw [tryCommandsLoop_eq_find, List.find?_eq_none]
    intro x hx
    obtain ⟨c, hc, hcx⟩ := List.mem_map.mp hx
    obtain ⟨hsucc, e, he, hcode⟩ := hall c hc
    rw [← hcx]
    simp [decisive, hsucc, he, hcode]
  have hrun : tryCommands env d t = runCommandViaShell env d.commands.getLast? d.args t := by
    unfold tryCommands
    rw [hloop]
  have hforced : runCommandViaShell env d.commands.getLast? d.args t =
      { runCommand env (shellOf env) (shellArgsFor env d.commands.getLast? d.args) t with
        command := d.commands.getLast?
        success := false
        resolvedPath := none
        status := none
        error := some ⟨(d.commands.getLast?.getD "undefined") ++
          ": command not found (shell fallback)", none⟩ } := by
    simp only [runCommandViaShell]
    rw [if_pos hsh]
  have hstat : resolveStatus d (tryCommands env d t) = .error := by
    rw [hrun, hforced]
    unfold resolveStatus
    rw [hres]
    unfold resolveStatusGeneric
    simp [truthyOptStr, hto]
  refine ⟨by rw [hrun, hforced], hstat, ?_⟩
  rw [hstat, hrun, hforced]
  unfold resolveMessage
  rw [if_neg hid, hmsg]
  simp only []
  rw [if_neg (show ¬(CliStatusCode.error = CliStatusCode.missing) by decide)]
  simp

/-- C3 amended witness: the amended theorem instantiated at the concrete
not-found provider and environment. -/
theorem notFound_shell_error_witness :
    (tryCommands c3Env c3Def 3000).resolvedPath = none ∧
    resolveStatus c3Def (tryCommands c3Env c3Def 3000) = .error ∧
    resolveMessage c3Def (tryCommands c3Env c3Def 3000)
        (resolveStatus c3Def (tryCommands c3Env c3Def 3000)) =
      (if jsTrim (runCommand c3Env (shellOf c3Env)
          (shellArgsFor c3Env c3Def.commands.getLast? c3Def.args) 3000).stderr ≠ "" then
        some (jsTrim (runCommand c3Env (shellOf c3Env)
          (shellArgsFor c3Env c3Def.commands.getLast? c3Def.args) 3000).stderr)
      else if jsTrim (runCommand c3Env (shellOf c3Env)
          (shellArgsFor c3Env c3Def.commands.getLast? c3Def.args) 3000).stdout ≠ "" then
        some (jsTrim (runCommand c3Env (shellOf c3Env)
          (shellArgsFor c3Env c3Def.commands.getLast? c3Def.args) 3000).stdout)
      else some ((c3Def.commands.getLast?.getD "undefined") ++
        ": command not found (shell fallback)")) :=
  notFound_shell_error c3Env c3Def 3000 rfl rfl (by decide)
    (by
      intro c hc
      fin_cases hc
      exact ⟨by decide, ⟨"spawn p ENOENT", some "ENOENT"⟩, by decide, rfl⟩)
    (by decide) (by decide)

/-- C8 counterexample: for the registry's own `codex` definition (no
message resolver) and a `missing` classification, the resolved message
is the hard-coded Codex install hint checked before everything else, not
the generic `"Codex was not found in PATH."` the claimed order
produces. -/
theorem resolveMessage_codex_overrides_policy :
    resolveMessage codexDef codexResult .missing =
      some "Codex CLI not detected. Install @openai/codex to enable Codex agents." ∧
    resolveMessage codexDef codexResult .missing ≠ some "Codex was not found in PATH." := by
  constructor <;> decide

/-- C8 amended: for every provider whose id is not `"codex"`, message
resolution follows the claimed order — override resolver when supplied,
else the generic not-found text for `missing`, else for `error` the
trimmed stderr, the trimmed stdout, or the attached error's message,
else null (`messagePolicySpec`). -/
theorem resolveMessage_policy_non_codex (d : CliDefinition) (r : CommandResult)
    (status : CliStatusCode) (hid : d.id ≠ "codex") :
    resolveMessage d r status = messagePolicySpec d r status := by
  unfold resolveMessage messagePolicySpec
  rw [if_neg hid]

/-- C8 amended witness: the amended theorem instantiated at a plain
provider and an error-classified result. -/
theorem resolveMessage_policy_non_codex_witness :
    resolveMessage c8Def c8Result .error = messagePolicySpec c8Def c8Result .error :=
  resolveMessage_policy_non_codex c8Def c8Result .error (by decide)

end Connections
